import Mathlib

/-!
Verification of the ARYPHISH_DETECTOR analysis server (`src/main.py`).

The development shallowly embeds the request-handling pipeline:
`fetch_website_content`, the two provider adapters `analyze_with_gemini`
and `analyze_with_openai`, the fan-out helper `perform_analysis`, the
`/analyze` route handler `analyze`, and the front-end result parser
`formatResult` (JavaScript inside `HTML_TEMPLATE`).

External effects are captured in an `Env` record: whether each provider
client was configured at startup, the behaviour of each provider backend
call (which may return text or raise, modelled by `Except`), and a fetch
oracle giving the outcome of the n-th HTTP GET attempt for a URL (the
attempt index makes "no retry" a provable statement: the code consults
attempt 0 only).
-/

namespace AryPhish

/-- Outcome of one HTTP GET attempt, as distinguished by
`fetch_website_content` (`main.py` lines 92-107): a 2xx body, an
`httpx.HTTPStatusError` carrying the response status code, or an
`httpx.RequestError` (DNS failure, refused connection, timeout, TLS
failure, ...) carrying some backend-specific detail text that the
handler never inspects. -/
inductive FetchOutcome where
  | ok (text : String)
  | statusError (code : Nat)
  | transportError (detail : String)
deriving DecidableEq

/-- The process environment fixed at startup (`main.py` lines 62-88)
together with the behaviour of the external services.  `fetch url n`
is the outcome of the (n+1)-th GET attempt for `url`; a backend
function returning `Except.error e` models the Python call raising an
exception whose string form is `e`. -/
structure Env where
  api_keys_present : Bool
  gemini_configured : Bool
  openai_configured : Bool
  gemini_backend : String → Except String String
  openai_backend : String → String → Except String String
  fetch : String → Nat → FetchOutcome

/-- The system prompt constant `AI_SYSTEM_PROMPT` (`main.py` lines 20-28). -/
def AI_SYSTEM_PROMPT : String :=
  "\nYou are an expert cybersecurity analyst specializing in phishing detection.\nYour task is to analyze a given URL and its HTML source code to determine if it is a phishing website or a safe website.\nProvide a clear one-word verdict: \x27Safe\x27 or \x27Phishing\x27.\nThen, provide a concise, one-paragraph explanation for your reasoning.\nFormat your response as:\nVerdict: [Safe/Phishing]\nReasoning: [Your one-paragraph explanation]\n"

/-- Embedding of `fetch_website_content` (`main.py` lines 92-107): a
single GET (attempt 0); a non-2xx status raises a message embedding the
numeric code, and every `httpx.RequestError` collapses to one fixed
message whatever its detail. -/
def fetch_website_content (env : Env) (url : String) : Except String String :=
  match env.fetch url 0 with
  | .ok text => .ok text
  | .statusError code =>
      .error ("Failed to fetch content (Status: " ++ toString code ++ "). Site may be down.")
  | .transportError _ =>
      .error "Could not retrieve website content. The site might be offline or unreachable."

/-- Embedding of `analyze_with_gemini` (`main.py` lines 109-119).  The
result is the coroutine's settled outcome: `.ok s` means it returned the
string `s`, `.error` would mean it raised.  The unconfigured guard
returns before any backend call; the `try`/`except` turns a raising
backend call into an error-message string. -/
def analyze_with_gemini (env : Env) (user_prompt system_prompt : String) :
    Except String String :=
  if env.gemini_configured = false then
    .ok "Error: Gemini model is not configured or API key is missing."
  else
    match env.gemini_backend (system_prompt ++ "\n\n---\n\n" ++ user_prompt) with
    | .ok text => .ok text
    | .error e => .ok ("Error during Gemini analysis: " ++ e)

/-- Embedding of `analyze_with_openai` (`main.py` lines 121-137); the
backend receives the system prompt and the user prompt as separate
messages. -/
def analyze_with_openai (env : Env) (user_prompt system_prompt : String) :
    Except String String :=
  if env.openai_configured = false then
    .ok "Error: OpenAI client is not configured or API key is missing."
  else
    match env.openai_backend system_prompt user_prompt with
    | .ok content => .ok content
    | .error e => .ok ("Error during OpenAI analysis: " ++ e)

/-- The membership test `ai_choice in [\x27gemini\x27, \x27both\x27]`
(`main.py` lines 383 and 394); `ai_choice` is `data.get("ai_choice")`,
hence possibly absent. -/
def geminiSelected (ai_choice : Option String) : Bool :=
  ai_choice == some "gemini" || ai_choice == some "both"

/-- The membership test `ai_choice in [\x27chatgpt\x27, \x27both\x27]`
(`main.py` lines 385 and 401). -/
def chatgptSelected (ai_choice : Option String) : Bool :=
  ai_choice == some "chatgpt" || ai_choice == some "both"

/-- The user prompt built at `main.py` lines 376-377: the fetched source
truncated to its first 15000 characters, spliced into a fixed template. -/
def userPrompt (url source_code : String) : String :=
  "URL: " ++ url ++ "\n\nSOURCE CODE (first 15,000 characters):\n" ++ source_code.take 15000

/-- One settled `asyncio.gather(..., return_exceptions=True)` slot as
consumed at `main.py` lines 395-405: an exception becomes the string
`"Error: ..."`, a returned value is used as is. -/
def settleTask (r : Except String String) : String :=
  match r with
  | .error e => "Error: " ++ e
  | .ok s => s

/-- A JSON response body: either `{"error": msg}` or a result object
whose only possible keys are `gemini` and `chatgpt` (present when
`some`). -/
inductive AnalysisBody where
  | errorBody (msg : String)
  | resultBody (gemini chatgpt : Option String)
deriving DecidableEq

/-- Embedding of `perform_analysis` (`main.py` lines 368-407): fetch
once (a failure aborts with that error and 400), build one prompt,
dispatch the selected adapters, await all of them, then walk the
results list with `result_index` exactly as the code does.  The
`getD` default models the `IndexError` Python would raise on an
out-of-range read; the selection conditions make it unreachable. -/
def perform_analysis (env : Env) (url : String) (ai_choice : Option String)
    (system_prompt : String) : AnalysisBody × Nat :=
  match fetch_website_content env url with
  | .error e => (.errorBody e, 400)
  | .ok source_code =>
    let user_prompt := userPrompt url source_code
    let tasks : List (Except String String) :=
      (if geminiSelected ai_choice then
        [analyze_with_gemini env user_prompt system_prompt] else [])
      ++ (if chatgptSelected ai_choice then
        [analyze_with_openai env user_prompt system_prompt] else [])
    let results := tasks
    let gemini_entry : Option String :=
      if geminiSelected ai_choice then
        some (settleTask (results.getD 0 (.error "list index out of range")))
      else none
    let result_index := if geminiSelected ai_choice then 1 else 0
    let chatgpt_entry : Option String :=
      if chatgptSelected ai_choice then
        some (settleTask (results.getD result_index (.error "list index out of range")))
      else none
    (.resultBody gemini_entry chatgpt_entry, 200)

/-- Embedding of the `/analyze` route handler (`main.py` lines 412-439).
`body` is the parsed JSON `(url?, ai_choice?)`; `none` models a request
whose body could not be parsed, which raises inside the handler and is
caught by the blanket `except` (500).  An absent or empty `url` is
falsy in Python, hence the 400 guard. -/
def analyze (env : Env) (body : Option (Option String × Option String)) :
    AnalysisBody × Nat :=
  if !env.api_keys_present || (!env.gemini_configured && !env.openai_configured) then
    (.errorBody "Server is not configured with at least one valid API key.", 500)
  else
    match body with
    | none => (.errorBody "An internal server error occurred.", 500)
    | some (url?, ai_choice) =>
      if url? == none || url? == some "" then
        (.errorBody "URL is required.", 400)
      else
        perform_analysis env (url?.getD "") ai_choice AI_SYSTEM_PROMPT

/-! The front-end result parser: `formatResult` in the JavaScript of
`HTML_TEMPLATE` (`main.py` lines 323-355).  Text is handled as a list
of characters.  The regex character class `\s` is modelled by the ASCII
whitespace characters; `/i` case folding by `Char.toLower`, which is
what both touch for the ASCII-only patterns involved. -/

/-- Verdict enumeration as displayed by the UI: the two matched words,
or Unknown when the verdict marker is absent or matches neither. -/
inductive Verdict where
  | safe
  | phishing
  | unknown
deriving DecidableEq

/-- ASCII whitespace, modelling the regex class `\s`. -/
def isSpaceChar (c : Char) : Bool :=
  c == ' ' || c == '\t' || c == '\n' || c == '\r' || c == '\x0b' || c == '\x0c'

/-- Case-insensitive literal match: does `cs` start with the (lowercase)
pattern `pat`?  Models a regex literal under the `/i` flag. -/
def lowerStartsWith : List Char → List Char → Bool
  | [], _ => true
  | _ :: _, [] => false
  | p :: ps, c :: cs => (c.toLower == p) && lowerStartsWith ps cs

/-- Greedy `\s*`: drop the maximal run of whitespace. -/
def dropSpaces (cs : List Char) : List Char := cs.dropWhile isSpaceChar

/-- The pattern `Verdict:` of `/Verdict:\s*(Safe|Phishing)/i`, lowered. -/
def verdictPat : List Char := "verdict:".toList

/-- The pattern `Reasoning:` of `/Reasoning:\s*([\s\S]*)/i`, lowered. -/
def reasoningPat : List Char := "reasoning:".toList

/-- Attempt of `/Verdict:\s*(Safe|Phishing)/i` anchored at the start of
`cs`: the literal, then greedy whitespace, then one of the alternatives
(greediness is exact here because neither alternative starts with a
whitespace character, so backtracking into `\s*` can never succeed). -/
def verdictAt (cs : List Char) : Option Verdict :=
  if lowerStartsWith verdictPat cs then
    if lowerStartsWith "safe".toList (dropSpaces (cs.drop verdictPat.length)) then
      some Verdict.safe
    else if lowerStartsWith "phishing".toList (dropSpaces (cs.drop verdictPat.length)) then
      some Verdict.phishing
    else none
  else none

/-- Unanchored regex search: the match at the leftmost position where
one exists, as `text.match(/Verdict:\s*(Safe|Phishing)/i)` returns. -/
def scanVerdict : List Char → Option Verdict
  | [] => none
  | c :: cs =>
    match verdictAt (c :: cs) with
    | some v => some v
    | none => scanVerdict cs

/-- Unanchored search for `/Reasoning:\s*([\s\S]*)/i`: at the leftmost
occurrence of the literal, the capture group is the rest of the text
after the greedy `\s*` (the `[\s\S]*` swallows everything to the end). -/
def findReasoning : List Char → Option (List Char)
  | [] => none
  | c :: cs =>
    if lowerStartsWith reasoningPat (c :: cs) then
      some (dropSpaces ((c :: cs).drop reasoningPat.length))
    else findReasoning cs

/-- JavaScript `String.prototype.trim`: strip whitespace at both ends. -/
def trimChars (cs : List Char) : List Char :=
  ((dropSpaces ((dropSpaces cs).reverse)).reverse)

/-- The parsing core of `formatResult` (`main.py` lines 330-346):
verdict defaults to Unknown, reasoning defaults to the whole text;
a verdict match overrides the former, a reasoning match (trimmed)
overrides the latter. -/
def parseResult (text : List Char) : Verdict × List Char :=
  let verdict :=
    match scanVerdict text with
    | some v => v
    | none => Verdict.unknown
  let reasoning :=
    match findReasoning text with
    | some r => trimChars r
    | none => text
  (verdict, reasoning)

/-- What `formatResult` renders: an error card for a text starting with
the (case-sensitive) literal `Error:`, otherwise the parsed verdict and
reasoning. -/
inductive Formatted where
  | failureText (text : List Char)
  | parsed (verdict : Verdict) (reasoning : List Char)
deriving DecidableEq

/-- Embedding of `formatResult` (`main.py` lines 323-355). -/
def formatResult (text : List Char) : Formatted :=
  if "Error:".toList.isPrefixOf text then Formatted.failureText text
  else Formatted.parsed (parseResult text).1 (parseResult text).2

/-- A concrete environment used by the witnesses below: keys loaded,
both providers configured, every fetch attempt returns a small page,
Gemini answers Safe and OpenAI answers Phishing. -/
def demoEnv : Env where
  api_keys_present := true
  gemini_configured := true
  openai_configured := true
  gemini_backend := fun _ => Except.ok "Verdict: Safe\nReasoning: Looks fine."
  openai_backend := fun _ _ => Except.ok "Verdict: Phishing\nReasoning: Suspicious form."
  fetch := fun _ _ => FetchOutcome.ok "<html>ok</html>"

/-! Theorems. -/

/-- Helper: a successful first fetch attempt makes `fetch_website_content`
return the body. -/
theorem fetch_ok_of_attempt (env : Env) (url source : String)
    (hf : env.fetch url 0 = FetchOutcome.ok source) :
    fetch_website_content env url = Except.ok source := by
  simp [fetch_website_content, hf]

/-- Helper: the closed form of `perform_analysis` after a successful
fetch, shared by the theorems below. -/
theorem perform_analysis_ok_eq (env : Env) (url : String)
    (ai_choice : Option String) (sys source : String)
    (hf : env.fetch url 0 = FetchOutcome.ok source) :
    perform_analysis env url ai_choice sys =
      (AnalysisBody.resultBody
        (if ai_choice == some "gemini" || ai_choice == some "both" then
          some (settleTask (analyze_with_gemini env (userPrompt url source) sys))
         else none)
        (if ai_choice == some "chatgpt" || ai_choice == some "both" then
          some (settleTask (analyze_with_openai env (userPrompt url source) sys))
         else none), 200) := by
  unfold perform_analysis
  rw [fetch_ok_of_attempt env url source hf]
  show (AnalysisBody.resultBody _ _, 200) = _
  rcases hg : geminiSelected ai_choice <;> rcases hc : chatgptSelected ai_choice <;>
    simp_all [geminiSelected, chatgptSelected]

/-- Helper: the closed form of `perform_analysis` when the fetch fails,
in any environment sharing the fetch oracle. -/
theorem perform_analysis_error_eq (env : Env) (url : String)
    (ai_choice : Option String) (sys e : String)
    (hf : fetch_website_content env url = Except.error e) :
    ∀ env' : Env, env'.fetch = env.fetch →
      perform_analysis env' url ai_choice sys = (AnalysisBody.errorBody e, 400) := by
  intro env' hfe
  have : fetch_website_content env' url = Except.error e := by
    unfold fetch_website_content at hf ⊢
    rw [hfe]; exact hf
  unfold perform_analysis
  rw [this]

/-- C1: with a successful fetch, `perform_analysis` returns status 200 and
a result object whose `gemini` entry is present exactly when `ai_choice`
is `"gemini"` or `"both"`, whose `chatgpt` entry is present exactly when
`ai_choice` is `"chatgpt"` or `"both"`, each holding that provider's own
settled adapter result on the shared prompt — whatever the adapters do. -/
theorem perform_analysis_fanout (env : Env) (url : String)
    (ai_choice : Option String) (sys source : String)
    (hf : env.fetch url 0 = FetchOutcome.ok source) :
    perform_analysis env url ai_choice sys =
      (AnalysisBody.resultBody
        (if ai_choice == some "gemini" || ai_choice == some "both" then
          some (settleTask (analyze_with_gemini env (userPrompt url source) sys))
         else none)
        (if ai_choice == some "chatgpt" || ai_choice == some "both" then
          some (settleTask (analyze_with_openai env (userPrompt url source) sys))
         else none), 200) :=
  perform_analysis_ok_eq env url ai_choice sys source hf

/-- C1 witness: the spec scenario — both providers selected, fetch
succeeds, primary answers Safe, secondary answers Phishing; both
entries appear, each with its own provider's text. -/
theorem perform_analysis_fanout_witness :
    perform_analysis demoEnv "http://good.example" (some "both") AI_SYSTEM_PROMPT =
    (AnalysisBody.resultBody (some "Verdict: Safe\nReasoning: Looks fine.")
      (some "Verdict: Phishing\nReasoning: Suspicious form."), 200) := by
  rw [perform_analysis_fanout demoEnv "http://good.example" (some "both")
    AI_SYSTEM_PROMPT "<html>ok</html>" rfl]
  decide

/-- C2: a failed fetch aborts the whole request with that error as the
400 body (no provider entries exist in an error body), and the outcome
is the same in any environment sharing the fetch oracle — in particular
it does not depend on the provider configuration or backends, so no
provider call is dispatched. -/
theorem perform_analysis_fetch_failure (env : Env) (url : String)
    (ai_choice : Option String) (sys e : String)
    (hf : fetch_website_content env url = Except.error e) :
    perform_analysis env url ai_choice sys = (AnalysisBody.errorBody e, 400) ∧
    (∀ env' : Env, env'.fetch = env.fetch →
      perform_analysis env' url ai_choice sys = (AnalysisBody.errorBody e, 400)) :=
  ⟨perform_analysis_error_eq env url ai_choice sys e hf env rfl,
   perform_analysis_error_eq env url ai_choice sys e hf⟩

/-- C2 witness: a concrete transport failure aborts with the fixed
transport message and status 400. -/
theorem perform_analysis_fetch_failure_witness :
    perform_analysis { demoEnv with fetch := fun _ _ => FetchOutcome.transportError "DNS failure" }
      "http://down.example" (some "both") AI_SYSTEM_PROMPT =
    (AnalysisBody.errorBody
      "Could not retrieve website content. The site might be offline or unreachable.", 400) :=
  (perform_analysis_fetch_failure
    { demoEnv with fetch := fun _ _ => FetchOutcome.transportError "DNS failure" }
    "http://down.example" (some "both") AI_SYSTEM_PROMPT _
    (by simp [fetch_website_content])).1

/-- C3: one provider's failure never suppresses the other's success —
with both providers selected and a successful fetch, a Gemini backend
that raises yields the converted error string under `gemini` while the
OpenAI success text still appears under `chatgpt`. -/
theorem provider_failure_isolated (env : Env) (url sys source e t : String)
    (hf : env.fetch url 0 = FetchOutcome.ok source)
    (hgc : env.gemini_configured = true)
    (hoc : env.openai_configured = true)
    (hbad : env.gemini_backend (sys ++ "\n\n---\n\n" ++ userPrompt url source) = Except.error e)
    (hok : env.openai_backend sys (userPrompt url source) = Except.ok t) :
    perform_analysis env url (some "both") sys =
      (AnalysisBody.resultBody
        (some ("Error during Gemini analysis: " ++ e)) (some t), 200) := by
  rw [perform_analysis_ok_eq env url (some "both") sys source hf]
  simp [analyze_with_gemini, analyze_with_openai, hgc, hoc, hbad, hok, settleTask]

/-- C3 witness: concretely, Gemini raising `boom` while OpenAI answers
leaves OpenAI's verdict in the response next to Gemini's error entry. -/
theorem provider_failure_isolated_witness :
    perform_analysis { demoEnv with gemini_backend := fun _ => Except.error "boom" }
      "http://good.example" (some "both") AI_SYSTEM_PROMPT =
    (AnalysisBody.resultBody (some ("Error during Gemini analysis: " ++ "boom"))
      (some "Verdict: Phishing\nReasoning: Suspicious form."), 200) :=
  provider_failure_isolated { demoEnv with gemini_backend := fun _ => Except.error "boom" }
    "http://good.example" AI_SYSTEM_PROMPT "<html>ok</html>"
    "boom" "Verdict: Phishing\nReasoning: Suspicious form." rfl rfl rfl rfl rfl

/-- C4 counterexample: with `ai_choice = "neither"` — zero providers
selected — no caller-input rejection happens before the fetch: the fetch
is still performed, a failing fetch surfaces its own transport error
with 400, and a succeeding fetch completes with an empty result map and
200 rather than any input error. -/
theorem zero_provider_not_rejected :
    perform_analysis
      { demoEnv with fetch := fun _ _ => FetchOutcome.transportError "connection refused" }
      "http://x.example" (some "neither") AI_SYSTEM_PROMPT =
      (AnalysisBody.errorBody
        "Could not retrieve website content. The site might be offline or unreachable.",
       400) ∧
    perform_analysis demoEnv "http://x.example" (some "neither") AI_SYSTEM_PROMPT =
      (AnalysisBody.resultBody none none, 200) := by
  constructor <;> decide

/-- C4 amended: a request selecting zero providers is not rejected
before the fetch; the fetch still runs, its failure is returned as the
400 fetch error, and its success yields an empty provider map with
status 200. -/
theorem zero_provider_amended (env : Env) (url : String)
    (ai_choice : Option String) (sys : String)
    (hg : geminiSelected ai_choice = false)
    (hc : chatgptSelected ai_choice = false) :
    (∀ e, fetch_website_content env url = Except.error e →
      perform_analysis env url ai_choice sys = (AnalysisBody.errorBody e, 400)) ∧
    (∀ source, env.fetch url 0 = FetchOutcome.ok source →
      perform_analysis env url ai_choice sys =
        (AnalysisBody.resultBody none none, 200)) := by
  simp only [geminiSelected] at hg
  simp only [chatgptSelected] at hc
  constructor
  · intro e hf
    exact perform_analysis_error_eq env url ai_choice sys e hf env rfl
  · intro source hf
    rw [perform_analysis_ok_eq env url ai_choice sys source hf]
    simp [hg, hc]

/-- C4 amended witness: a concrete zero-provider request with a
successful fetch completes with 200 and the empty map. -/
theorem zero_provider_amended_witness :
    perform_analysis demoEnv "http://x.example" (some "neither") AI_SYSTEM_PROMPT =
      (AnalysisBody.resultBody none none, 200) :=
  (zero_provider_amended demoEnv "http://x.example" (some "neither") AI_SYSTEM_PROMPT
    (by decide) (by decide)).2 "<html>ok</html>" rfl

/-- C5: selecting the OpenAI provider while it is unconfigured yields a
Failure entry under `chatgpt` (not an omission, not an exception) and
the whole request still answers 200; moreover the unconfigured adapter
returns that Failure no matter what the backend would do, i.e. without
any backend call. -/
theorem unconfigured_provider_entry (env : Env) (url source : String)
    (hk : env.api_keys_present = true)
    (hg : env.gemini_configured = true)
    (ho : env.openai_configured = false)
    (hu : url ≠ "")
    (hf : env.fetch url 0 = FetchOutcome.ok source) :
    analyze env (some (some url, some "chatgpt")) =
      (AnalysisBody.resultBody none
        (some "Error: OpenAI client is not configured or API key is missing."), 200) ∧
    (∀ b p s, analyze_with_openai { env with openai_backend := b } p s =
      Except.ok "Error: OpenAI client is not configured or API key is missing.") := by
  constructor
  · unfold analyze
    rw [hk, hg]
    simp only [Bool.not_true, Bool.false_and, Bool.false_or, Bool.false_eq_true, if_false]
    have hurl : ((some url : Option String) == none || (some url : Option String) == some "")
        = false := by
      simp [hu]
    rw [hurl]
    simp only [Bool.false_eq_true, if_false]
    rw [show (some url).getD "" = url from rfl,
      perform_analysis_ok_eq env url (some "chatgpt") AI_SYSTEM_PROMPT source hf]
    simp [analyze_with_openai, ho, settleTask]
  · intro b p s
    simp [analyze_with_openai, ho]

/-- C5 witness: the spec scenario — only the secondary provider
selected and unconfigured; the response carries its Failure entry and
status is still 200. -/
theorem unconfigured_provider_entry_witness :
    analyze { demoEnv with openai_configured := false }
      (some (some "http://x.example", some "chatgpt")) =
      (AnalysisBody.resultBody none
        (some "Error: OpenAI client is not configured or API key is missing."), 200) :=
  (unconfigured_provider_entry { demoEnv with openai_configured := false }
    "http://x.example" "<html>ok</html>" rfl rfl rfl (by decide) rfl).1

set_option maxRecDepth 4000 in
/-- C6: prompt construction is a pure function of the URL and the
fetched text: the prompt embeds exactly `source.take 15000`, which is a
prefix of the content (appending the dropped remainder recovers it) and
is the whole content when it has at most 15000 characters; and with
both providers selected, one identical prompt string is handed to both
adapters.  Determinism across repeated calls is inherent: `userPrompt`
is a pure function. -/
theorem prompt_truncation_shared (env : Env) (url source sys : String)
    (hf : env.fetch url 0 = FetchOutcome.ok source) :
    (perform_analysis env url (some "both") sys).1 =
      AnalysisBody.resultBody
        (some (settleTask (analyze_with_gemini env (userPrompt url source) sys)))
        (some (settleTask (analyze_with_openai env (userPrompt url source) sys))) ∧
    userPrompt url source =
      "URL: " ++ url ++ "\n\nSOURCE CODE (first 15,000 characters):\n" ++
        source.take 15000 ∧
    source.take 15000 ++ source.drop 15000 = source ∧
    (source.length ≤ 15000 → source.take 15000 = source) := by
  refine ⟨?_, rfl, ?_, ?_⟩
  · rw [perform_analysis_ok_eq env url (some "both") sys source hf]
    rfl
  · apply String.ext
    rw [String.data_append, String.data_take, String.data_drop]
    exact List.take_append_drop 15000 source.data
  · intro h
    apply String.ext
    simp only [String.data_take]
    exact List.take_of_length_le h

/-- C6 witness: a short page is included whole in the prompt. -/
theorem prompt_truncation_shared_witness :
    ("<html>ok</html>" : String).take 15000 = "<html>ok</html>" :=
  (prompt_truncation_shared demoEnv "http://good.example" "<html>ok</html>"
    AI_SYSTEM_PROMPT rfl).2.2.2 (by decide)

/-- C8: the fetch failure taxonomy — a non-2xx status yields an error
message embedding the numeric status code, every transport-level
failure collapses to the one fixed user-facing message whatever its
detail, and only the first attempt of the fetch oracle is ever
consulted, so exactly one attempt is made with no retry. -/
theorem fetch_failure_taxonomy (env : Env) (url : String) :
    (∀ code, env.fetch url 0 = FetchOutcome.statusError code →
      fetch_website_content env url =
        Except.error
          ("Failed to fetch content (Status: " ++ toString code ++ "). Site may be down.")) ∧
    (∀ d d' (env' : Env), env.fetch url 0 = FetchOutcome.transportError d →
      env'.fetch url 0 = FetchOutcome.transportError d' →
      fetch_website_content env url =
        Except.error
          "Could not retrieve website content. The site might be offline or unreachable." ∧
      fetch_website_content env' url = fetch_website_content env url) ∧
    (∀ env' : Env, env'.fetch url 0 = env.fetch url 0 →
      fetch_website_content env' url = fetch_website_content env url) := by
  refine ⟨?_, ?_, ?_⟩
  · intro code h
    simp [fetch_website_content, h]
  · intro d d' env' h h'
    constructor <;> simp [fetch_website_content, h, h']
  · intro env' h'
    unfold fetch_website_content
    rw [h']

/-- C8 witness: the spec scenario — a 404 status error produces the
status-bearing message on the single attempt. -/
theorem fetch_failure_taxonomy_witness :
    fetch_website_content { demoEnv with fetch := fun _ _ => FetchOutcome.statusError 404 }
      "http://gone.example" =
      Except.error
        ("Failed to fetch content (Status: " ++ toString 404 ++ "). Site may be down.") :=
  (fetch_failure_taxonomy { demoEnv with fetch := fun _ _ => FetchOutcome.statusError 404 }
    "http://gone.example").1 404 rfl

/-- C9: the request-level status contract — with no provider configured
server-wide every request gets the 500 configuration error whatever its
body (neither the fetch oracle nor a backend is consulted, as the fixed
reply shows); a completed analysis answers 200 whatever the providers
did; a failed fetch answers 400 with the fetch error as the body. -/
theorem status_contract (env : Env) :
    (env.gemini_configured = false → env.openai_configured = false →
      ∀ body, analyze env body =
        (AnalysisBody.errorBody "Server is not configured with at least one valid API key.",
         500)) ∧
    (∀ url ai_choice sys source, env.fetch url 0 = FetchOutcome.ok source →
      (perform_analysis env url ai_choice sys).2 = 200) ∧
    (∀ url ai_choice sys e, fetch_website_content env url = Except.error e →
      perform_analysis env url ai_choice sys = (AnalysisBody.errorBody e, 400)) := by
  refine ⟨?_, ?_, ?_⟩
  · intro hg ho body
    unfold analyze
    rw [hg, ho]
    simp
  · intro url ai_choice sys source hf
    rw [perform_analysis_ok_eq env url ai_choice sys source hf]
  · intro url ai_choice sys e hf
    exact perform_analysis_error_eq env url ai_choice sys e hf env rfl

/-- C9 witness: a server with neither provider configured answers 500
with the configuration error, even to an unparseable body. -/
theorem status_contract_witness :
    analyze { demoEnv with gemini_configured := false, openai_configured := false } none =
      (AnalysisBody.errorBody "Server is not configured with at least one valid API key.",
       500) :=
  (status_contract
    { demoEnv with gemini_configured := false, openai_configured := false }).1 rfl rfl none

/-- C10: both adapters are total and never raise — for every
environment and prompts, each returns `.ok` of some string, so the
`isinstance(result, Exception)` branch of the merge (`settleTask`'s
error case) is unreachable and every response entry is the adapter's
string itself. -/
theorem adapters_never_raise (env : Env) (p s : String) :
    (∃ t, analyze_with_gemini env p s = Except.ok t ∧
      settleTask (analyze_with_gemini env p s) = t) ∧
    (∃ t, analyze_with_openai env p s = Except.ok t ∧
      settleTask (analyze_with_openai env p s) = t) := by
  constructor
  · refine ⟨settleTask (analyze_with_gemini env p s), ?_, rfl⟩
    unfold analyze_with_gemini
    cases hg : env.gemini_configured <;>
      cases hb : env.gemini_backend (s ++ "\n\n---\n\n" ++ p) <;>
        simp [settleTask]
  · refine ⟨settleTask (analyze_with_openai env p s), ?_, rfl⟩
    unfold analyze_with_openai
    cases ho : env.openai_configured <;>
      cases hb : env.openai_backend s p <;>
        simp [settleTask]

/-! Characterization of the front-end parser scanners. -/

/-- Helper: no match is possible in the empty text. -/
theorem verdictAt_nil : verdictAt [] = none := by decide

/-- Helper: the anchored verdict match never yields Unknown. -/
theorem verdictAt_not_unknown (cs : List Char) :
    verdictAt cs ≠ some Verdict.unknown := by
  unfold verdictAt
  cases hm : lowerStartsWith verdictPat cs <;>
    cases hs : lowerStartsWith "safe".toList (dropSpaces (cs.drop verdictPat.length)) <;>
      cases hp : lowerStartsWith "phishing".toList (dropSpaces (cs.drop verdictPat.length)) <;>
        simp_all

/-- Helper: the unanchored verdict scan fails exactly when the anchored
match fails at every position. -/
theorem scanVerdict_none_iff (cs : List Char) :
    scanVerdict cs = none ↔ ∀ i, verdictAt (cs.drop i) = none := by
  induction cs with
  | nil =>
    simp only [scanVerdict, List.drop_nil, true_iff]
    intro i
    exact verdictAt_nil
  | cons c cs ih =>
    constructor
    · intro h i
      unfold scanVerdict at h
      cases hv : verdictAt (c :: cs) with
      | some v => rw [hv] at h; exact absurd h (by simp)
      | none =>
        rw [hv] at h
        cases i with
        | zero => exact hv
        | succ i => simpa using (ih.mp h) i
    · intro h
      unfold scanVerdict
      have h0 := h 0
      simp only [List.drop_zero] at h0
      rw [h0]
      exact ih.mpr fun i => by simpa using h (i + 1)

/-- Helper: a scanned verdict comes from an anchored match at some
position. -/
theorem scanVerdict_some_exists (cs : List Char) (v : Verdict)
    (h : scanVerdict cs = some v) :
    ∃ i, verdictAt (cs.drop i) = some v := by
  induction cs with
  | nil => simp [scanVerdict] at h
  | cons c cs ih =>
    unfold scanVerdict at h
    cases hv : verdictAt (c :: cs) with
    | some w =>
      rw [hv] at h
      simp only [Option.some.injEq] at h
      exact ⟨0, by simpa [h] using hv⟩
    | none =>
      rw [hv] at h
      obtain ⟨i, hi⟩ := ih h
      exact ⟨i + 1, by simpa using hi⟩

/-- Helper: the unanchored reasoning scan fails exactly when the marker
matches at no position. -/
theorem findReasoning_none_iff (cs : List Char) :
    findReasoning cs = none ↔
      ∀ i, lowerStartsWith reasoningPat (cs.drop i) = false := by
  induction cs with
  | nil =>
    simp only [findReasoning, List.drop_nil, true_iff]
    intro i
    decide
  | cons c cs ih =>
    constructor
    · intro h i
      unfold findReasoning at h
      cases hm : lowerStartsWith reasoningPat (c :: cs) with
      | true => rw [hm] at h; exact absurd h (by simp)
      | false =>
        rw [hm] at h
        simp only [Bool.false_eq_true, if_false] at h
        cases i with
        | zero => exact hm
        | succ i => simpa using (ih.mp h) i
    · intro h
      unfold findReasoning
      have h0 := h 0
      simp only [List.drop_zero] at h0
      rw [h0]
      simp only [Bool.false_eq_true, if_false]
      exact ih.mpr fun i => by simpa using h (i + 1)

/-- Helper: a found reasoning capture is the text after the marker at
some matching position, with its leading whitespace stripped by the
greedy `\s*`. -/
theorem findReasoning_some_exists (cs r : List Char)
    (h : findReasoning cs = some r) :
    ∃ i, lowerStartsWith reasoningPat (cs.drop i) = true ∧
      r = dropSpaces ((cs.drop i).drop reasoningPat.length) := by
  induction cs with
  | nil => simp [findReasoning] at h
  | cons c cs ih =>
    unfold findReasoning at h
    cases hm : lowerStartsWith reasoningPat (c :: cs) with
    | true =>
      rw [hm] at h
      simp only [if_true, Option.some.injEq] at h
      exact ⟨0, by simpa using hm, by simpa using h.symm⟩
    | false =>
      rw [hm] at h
      simp only [Bool.false_eq_true, if_false] at h
      obtain ⟨i, hi, hr⟩ := ih h
      exact ⟨i + 1, by simpa using hi, by simpa using hr⟩

/-- Helper: a case-insensitive literal matches any casing of itself —
if `mid` lowercases to the pattern, the match succeeds on `mid ++ rest`. -/
theorem lowerStartsWith_of_map (pat mid rest : List Char)
    (h : mid.map Char.toLower = pat) :
    lowerStartsWith pat (mid ++ rest) = true := by
  induction mid generalizing pat with
  | nil => subst h; rfl
  | cons c m ih =>
    subst h
    simp only [List.map_cons, List.cons_append]
    unfold lowerStartsWith
    rw [ih (m.map Char.toLower) rfl]
    simp

/-- Helper: whitespace characters are fixed points of lowering. -/
theorem isSpaceChar_toLower (c : Char) (h : isSpaceChar c = true) :
    c.toLower = c := by
  simp only [isSpaceChar, Bool.or_eq_true, beq_iff_eq, or_assoc] at h
  rcases h with rfl | rfl | rfl | rfl | rfl | rfl <;> decide

/-- Helper: the greedy space skip passes over an all-whitespace block. -/
theorem dropSpaces_append (ws rest : List Char)
    (h : ∀ c ∈ ws, isSpaceChar c = true) :
    dropSpaces (ws ++ rest) = dropSpaces rest := by
  induction ws with
  | nil => rfl
  | cons c ws ih =>
    have hc := h c (by simp)
    simp only [List.cons_append, dropSpaces, List.dropWhile_cons, hc, if_true]
    exact ih fun d hd => h d (by simp [hd])

/-- Helper: the greedy space skip stops at a non-space head. -/
theorem dropSpaces_cons_of_not (c : Char) (rest : List Char)
    (h : isSpaceChar c = false) :
    dropSpaces (c :: rest) = c :: rest := by
  simp [dropSpaces, List.dropWhile_cons, h]

/-- Helper: any casing of the verdict marker, any whitespace run and any
casing of `Safe` or `Phishing` make the anchored match succeed with that
verdict. -/
theorem verdictAt_anchored (mid ws w rest : List Char) (v : Verdict)
    (hmid : mid.map Char.toLower = verdictPat)
    (hws : ∀ c ∈ ws, isSpaceChar c = true)
    (hw : (v = Verdict.safe ∧ w.map Char.toLower = "safe".toList) ∨
      (v = Verdict.phishing ∧ w.map Char.toLower = "phishing".toList)) :
    verdictAt (mid ++ (ws ++ (w ++ rest))) = some v := by
  have hlen : verdictPat.length = mid.length := by
    rw [← hmid, List.length_map]
  have hdrop : (mid ++ (ws ++ (w ++ rest))).drop verdictPat.length = ws ++ (w ++ rest) := by
    rw [hlen, List.drop_left]
  unfold verdictAt
  rw [lowerStartsWith_of_map verdictPat mid _ hmid, hdrop, dropSpaces_append ws _ hws]
  rcases hw with ⟨rfl, hw⟩ | ⟨rfl, hw⟩
  · obtain ⟨c, w', rfl⟩ : ∃ c w', w = c :: w' := by
      cases w with
      | nil => simp at hw
      | cons c w' => exact ⟨c, w', rfl⟩
    obtain ⟨hc, hw'⟩ : c.toLower = 's' ∧ w'.map Char.toLower = "afe".toList := by
      simpa using hw
    have hcsp : isSpaceChar c = false := by
      cases hsp : isSpaceChar c
      · rfl
      · rw [isSpaceChar_toLower c hsp] at hc
        subst hc
        exact absurd hsp (by decide)
    simp only [List.cons_append, dropSpaces_cons_of_not c _ hcsp]
    rw [show lowerStartsWith "safe".toList (c :: (w' ++ rest)) = true from
      lowerStartsWith_of_map _ (c :: w') rest hw]
    simp
  · obtain ⟨c, w', rfl⟩ : ∃ c w', w = c :: w' := by
      cases w with
      | nil => simp at hw
      | cons c w' => exact ⟨c, w', rfl⟩
    obtain ⟨hc, hw'⟩ : c.toLower = 'p' ∧ w'.map Char.toLower = "hishing".toList := by
      simpa using hw
    have hcsp : isSpaceChar c = false := by
      cases hsp : isSpaceChar c
      · rfl
      · rw [isSpaceChar_toLower c hsp] at hc
        subst hc
        exact absurd hsp (by decide)
    simp only [List.cons_append, dropSpaces_cons_of_not c _ hcsp]
    have hsafe : lowerStartsWith "safe".toList (c :: (w' ++ rest)) = false := by
      simp [lowerStartsWith, hc]
    rw [hsafe,
      show lowerStartsWith "phishing".toList (c :: (w' ++ rest)) = true from
        lowerStartsWith_of_map _ (c :: w') rest hw]
    simp

/-- C7: parsing of a provider's raw text is case-insensitive and
position-insensitive.  (1) The parsed verdict is Unknown exactly when no
position of the text carries a verdict match — an absent or unmatched
marker is not an error, the parse still returns a verdict/reasoning
pair.  (2) Any non-Unknown verdict comes from a verdict match at some
position.  (3) Any casing of `Verdict:` followed by whitespace and any
casing of `Safe`/`Phishing`, appearing anywhere in the text, prevents
Unknown; and when every match in the text names the same verdict, the
parse yields exactly that verdict.  (4) A present reasoning marker makes
the reasoning the text after the leftmost (case-insensitive) marker,
whitespace-skipped and trimmed; (5) with no marker the reasoning is the
whole text. -/
theorem parse_characterization (text : List Char) :
    ((parseResult text).1 = Verdict.unknown ↔ ∀ i, verdictAt (text.drop i) = none) ∧
    (∀ v, (parseResult text).1 = v → v ≠ Verdict.unknown →
      ∃ i, verdictAt (text.drop i) = some v) ∧
    (∀ s1 mid ws w s2 v,
      mid.map Char.toLower = verdictPat →
      (∀ c ∈ ws, isSpaceChar c = true) →
      ((v = Verdict.safe ∧ w.map Char.toLower = "safe".toList) ∨
        (v = Verdict.phishing ∧ w.map Char.toLower = "phishing".toList)) →
      text = s1 ++ (mid ++ (ws ++ (w ++ s2))) →
      (parseResult text).1 ≠ Verdict.unknown ∧
        ((∀ i u, verdictAt (text.drop i) = some u → u = v) →
          (parseResult text).1 = v)) ∧
    (∀ r, findReasoning text = some r →
      (parseResult text).2 = trimChars r ∧
      ∃ i, lowerStartsWith reasoningPat (text.drop i) = true ∧
        r = dropSpaces ((text.drop i).drop reasoningPat.length)) ∧
    (findReasoning text = none → (parseResult text).2 = text) := by
  have hfst : ∀ v, scanVerdict text = some v → (parseResult text).1 = v := by
    intro v hs
    simp [parseResult, hs]
  have hunk : (parseResult text).1 = Verdict.unknown ↔ scanVerdict text = none := by
    constructor
    · intro h
      cases hs : scanVerdict text with
      | none => rfl
      | some v =>
        rw [hfst v hs] at h
        subst h
        obtain ⟨i, hi⟩ := scanVerdict_some_exists text _ hs
        exact absurd hi (verdictAt_not_unknown _)
    · intro hs
      simp [parseResult, hs]
  refine ⟨hunk.trans (scanVerdict_none_iff text), ?_, ?_, ?_, ?_⟩
  · intro v hv hne
    cases hs : scanVerdict text with
    | none => exact absurd (hv ▸ hunk.mpr hs) hne
    | some w =>
      rw [hfst w hs] at hv
      exact hv ▸ scanVerdict_some_exists text w hs
  · intro s1 mid ws w s2 v hmid hws hw htext
    have hmatch : verdictAt (text.drop s1.length) = some v := by
      rw [htext, List.drop_left]
      exact verdictAt_anchored mid ws w s2 v hmid hws hw
    have hne : (parseResult text).1 ≠ Verdict.unknown := by
      intro h
      have := (hunk.trans (scanVerdict_none_iff text)).mp h s1.length
      rw [this] at hmatch
      cases hmatch
    refine ⟨hne, ?_⟩
    intro hall
    cases hs : scanVerdict text with
    | none => exact absurd (hunk.mpr hs) hne
    | some u =>
      obtain ⟨i, hi⟩ := scanVerdict_some_exists text u hs
      rw [hfst u hs]
      exact hall i u hi
  · intro r hr
    exact ⟨by simp [parseResult, hr], findReasoning_some_exists text r hr⟩
  · intro h
    simp [parseResult, h]

/-- C7 witness: a scrambled-casing verdict in mid-text is still
recognised, and the canonical `Verdict`/`Reasoning` text parses to the
trimmed reasoning capture. -/
theorem parse_characterization_witness :
    (parseResult ("hey VerDICT:  sAfE ok".toList)).1 ≠ Verdict.unknown ∧
    (parseResult ("Verdict: Safe\nReasoning: X".toList)).2 = trimChars ("X".toList) :=
  ⟨((parse_characterization ("hey VerDICT:  sAfE ok".toList)).2.2.1
      "hey ".toList "VerDICT:".toList "  ".toList "sAfE".toList " ok".toList Verdict.safe
      (by decide) (by decide) (Or.inl ⟨rfl, by decide⟩) (by decide)).1,
   ((parse_characterization ("Verdict: Safe\nReasoning: X".toList)).2.2.2.1
      ("X".toList) (by decide)).1⟩

end AryPhish
